import Mathlib

/-!
Shallow embedding of `src/app/main.py` (FastAPI "PDF to JPEG service") and
proofs about its content negotiation, streaming encoders, classification,
screenshot validation and temp-resource lifecycle.

Strings are modelled as lists of Unicode code points (`List Nat`) where byte
or character level fidelity matters.  Python `str.lower` is modelled on the
ASCII range only; this is exact for every comparison the service performs,
since all comparison targets (`"zip"`, `"json"`, media types, extensions)
are pure ASCII and ASCII characters are unchanged by full Unicode lowering.
-/

namespace PdfService

/-- Code points of a Lean string literal. -/
def strCodes (s : String) : List Nat := s.data.map Char.toNat

/-- ASCII lowering of one code point (Python `str.lower`, ASCII fragment). -/
def lowerCode (n : Nat) : Nat := if 65 ≤ n ∧ n ≤ 90 then n + 32 else n

/-- Pointwise lowering of a code-point string. -/
def lowerCodes (l : List Nat) : List Nat := l.map lowerCode

/-- Python `str.strip` whitespace set (ASCII fragment: space, tab, LF, CR, FF, VT). -/
def pyIsSpace (n : Nat) : Bool := n = 32 || n = 9 || n = 10 || n = 13 || n = 12 || n = 11

/-- Python `str.strip`: drop leading and trailing whitespace. -/
def stripCodes (l : List Nat) : List Nat :=
  ((l.dropWhile pyIsSpace).reverse.dropWhile pyIsSpace).reverse

/-- Python `str.split(sep)` for a one-character separator, keeping empty pieces. -/
def splitCode (sep : Nat) : List Nat → List (List Nat)
  | [] => [[]]
  | c :: rest =>
    match splitCode sep rest with
    | [] => [[]]
    | h :: t => if c = sep then [] :: h :: t else (c :: h) :: t

/-- `item.split(";")[0].strip().lower()` — the media type of one Accept item
(src/app/main.py lines 223 and 235); 59 is the code of the semicolon. -/
def mediaTypeOf (item : List Nat) : List Nat :=
  lowerCodes (stripCodes ((splitCode 59 item).headD []))

/-- The loop of `_wants_zip` over `accept_header.split(",")` (lines 220-226),
including the Python falsiness test `if not accept_header`. -/
def acceptHasZipType : Option String → Bool
  | none => false
  | some a =>
    if a == "" then false
    else (splitCode 44 (strCodes a)).any (fun item =>
      mediaTypeOf item == strCodes "application/zip"
      || mediaTypeOf item == strCodes "application/x-zip-compressed")

/-- The loop of `_wants_json` over `accept_header.split(",")` (lines 232-238). -/
def acceptHasJsonType : Option String → Bool
  | none => false
  | some a =>
    if a == "" then false
    else (splitCode 44 (strCodes a)).any (fun item =>
      mediaTypeOf item == strCodes "application/json")

/-- `_wants_zip(response_format, accept_header)` (src/app/main.py lines 217-226).
`response_format and response_format.lower() == "zip"` is the Python truthiness
test followed by the lowered comparison. -/
def wants_zip (response_format accept_header : Option String) : Bool :=
  if (match response_format with
      | some s => s != "" && lowerCodes (strCodes s) == strCodes "zip"
      | none => false) then
    true
  else
    acceptHasZipType accept_header

/-- `_wants_json(response_format, accept_header)` (src/app/main.py lines 229-238).
When `response_format` is truthy the function returns immediately with
`response_format.lower() == "json"` and never consults the Accept header. -/
def wants_json (response_format accept_header : Option String) : Bool :=
  match response_format with
  | some s =>
    if s != "" then lowerCodes (strCodes s) == strCodes "json"
    else acceptHasJsonType accept_header
  | none => acceptHasJsonType accept_header

/-- A FastAPI `HTTPException(status_code, detail)`. -/
structure HTTPError where
  status : Nat
  detail : String
  deriving DecidableEq, Repr

/-- `PDF_EXTENSIONS` (src/app/main.py line 30). -/
def PDF_EXTENSIONS : List String := [".pdf"]

/-- `DOCUMENT_EXTENSIONS` (line 31). -/
def DOCUMENT_EXTENSIONS : List String := [".doc", ".docx"]

/-- `SPREADSHEET_EXTENSIONS` (line 32). -/
def SPREADSHEET_EXTENSIONS : List String := [".xls", ".xlsx"]

/-- `PRESENTATION_EXTENSIONS` (line 33). -/
def PRESENTATION_EXTENSIONS : List String := [".ppt", ".pptx"]

/-- `VIDEO_EXTENSIONS` (line 34). -/
def VIDEO_EXTENSIONS : List String := [".mp4", ".mov", ".avi"]

/-- `SUPPORTED_EXTENSIONS` — the union at lines 36-42 (the five sets are
pairwise disjoint, so a list union is faithful). -/
def SUPPORTED_EXTENSIONS : List String :=
  PDF_EXTENSIONS ++ DOCUMENT_EXTENSIONS ++ SPREADSHEET_EXTENSIONS
    ++ PRESENTATION_EXTENSIONS ++ VIDEO_EXTENSIONS

/-- Python `str.lower` on one character, ASCII fragment.  Full Unicode
lowering differs only on non-ASCII characters, and no non-ASCII character
lowers to a string that makes any comparison in this service come out
differently (every comparison target is pure ASCII and contains no "k", the
only ASCII letter reachable by lowering a non-ASCII character). -/
def asciiLowerChar (c : Char) : Char :=
  if 65 ≤ c.toNat ∧ c.toNat ≤ 90 then Char.ofNat (c.toNat + 32) else c

/-- Python `str.lower`, ASCII fragment. -/
def strToLower (s : String) : String := String.mk (s.data.map asciiLowerChar)

/-- `os.path.splitext(p)[1]` on POSIX: the extension starting at the last dot
of the final path component, except when that component has only dots before
this last dot (leading dots are skipped, so ".bashrc" has no extension). -/
def splitextExt (p : String) : String :=
  let base := (p.data.reverse.takeWhile (fun c => c ≠ '/')).reverse
  let rest := base.dropWhile (fun c => c = '.')
  if rest.any (fun c => c = '.') then
    String.mk ('.' :: (rest.reverse.takeWhile (fun c => c ≠ '.')).reverse)
  else ""

/-- The `content_type_mapping` dictionary of `_get_upload_suffix`
(lines 52-63), with the `.get(content_type, "")` default. -/
def content_type_mapping (ct : String) : String :=
  if ct = "application/pdf" then ".pdf"
  else if ct = "application/msword" then ".doc"
  else if ct = "application/vnd.openxmlformats-officedocument.wordprocessingml.document" then ".docx"
  else if ct = "application/vnd.ms-excel" then ".xls"
  else if ct = "application/vnd.openxmlformats-officedocument.spreadsheetml.sheet" then ".xlsx"
  else if ct = "application/vnd.ms-powerpoint" then ".ppt"
  else if ct = "application/vnd.openxmlformats-officedocument.presentationml.presentation" then ".pptx"
  else if ct = "video/mp4" then ".mp4"
  else if ct = "video/quicktime" then ".mov"
  else if ct = "video/x-msvideo" then ".avi"
  else ""

/-- `_get_upload_suffix(upload)` (src/app/main.py lines 45-65): a lowered
extension from the filename when the filename is truthy and has a non-empty
extension, else the content-type table applied to the lowered declared type
(`upload.content_type or ""`). -/
def get_upload_suffix (filename content_type : Option String) : String :=
  let fromName : Option String :=
    match filename with
    | some f =>
      if f ≠ "" then
        (let e := splitextExt f
         if e ≠ "" then some (strToLower e) else none)
      else none
    | none => none
  match fromName with
  | some e => e
  | none => content_type_mapping (strToLower (content_type.getD ""))

/-- `_categorize_extension(suffix)` (src/app/main.py lines 68-75). -/
def categorize_extension (suffix : String) : String :=
  if suffix ∈ PDF_EXTENSIONS then "pdf"
  else if suffix ∈ DOCUMENT_EXTENSIONS ++ SPREADSHEET_EXTENSIONS
      ++ PRESENTATION_EXTENSIONS then "office"
  else if suffix ∈ VIDEO_EXTENSIONS then "video"
  else "unknown"

/-- The category of a suffix is "pdf" / "office" / "video" exactly on the
corresponding extension sets and "unknown" exactly outside
`SUPPORTED_EXTENSIONS`. -/
theorem categorize_partition (s : String) :
    (categorize_extension s = "pdf" ↔ s ∈ PDF_EXTENSIONS)
    ∧ (categorize_extension s = "office"
        ↔ s ∈ DOCUMENT_EXTENSIONS ++ SPREADSHEET_EXTENSIONS ++ PRESENTATION_EXTENSIONS)
    ∧ (categorize_extension s = "video" ↔ s ∈ VIDEO_EXTENSIONS)
    ∧ (categorize_extension s = "unknown" ↔ s ∉ SUPPORTED_EXTENSIONS) := by
  by_cases h1 : s ∈ PDF_EXTENSIONS <;>
    by_cases h2 : s ∈ DOCUMENT_EXTENSIONS ++ SPREADSHEET_EXTENSIONS
      ++ PRESENTATION_EXTENSIONS <;>
    by_cases h3 : s ∈ VIDEO_EXTENSIONS <;>
    simp_all [categorize_extension, SUPPORTED_EXTENSIONS, PDF_EXTENSIONS,
      DOCUMENT_EXTENSIONS, SPREADSHEET_EXTENSIONS, PRESENTATION_EXTENSIONS,
      VIDEO_EXTENSIONS] <;>
    (rcases h2 with rfl | rfl | rfl | rfl | rfl | rfl <;>
      rcases h3 with h3 | h3 | h3 <;> exact absurd h3 (by decide))

/-- C6: classification never fails and is pure — for every optional filename
and declared content type the suffix is derived from the filename when it is
present with a non-empty extension (lowered) and otherwise from the fixed
content-type table, and the suffix maps to "pdf" exactly on ".pdf", to
"office" exactly on the six office extensions, to "video" exactly on
.mp4/.mov/.avi, and to "unknown" for every other input. -/
theorem classification_total (filename content_type : Option String) :
    (get_upload_suffix filename content_type
      = (match filename with
         | some f =>
           if f ≠ "" ∧ splitextExt f ≠ "" then strToLower (splitextExt f)
           else content_type_mapping (strToLower (content_type.getD ""))
         | none => content_type_mapping (strToLower (content_type.getD ""))))
    ∧ (categorize_extension (get_upload_suffix filename content_type) = "pdf"
        ↔ get_upload_suffix filename content_type = ".pdf")
    ∧ (categorize_extension (get_upload_suffix filename content_type) = "office"
        ↔ get_upload_suffix filename content_type
            ∈ [".doc", ".docx", ".xls", ".xlsx", ".ppt", ".pptx"])
    ∧ (categorize_extension (get_upload_suffix filename content_type) = "video"
        ↔ get_upload_suffix filename content_type ∈ [".mp4", ".mov", ".avi"])
    ∧ (get_upload_suffix filename content_type ∉ SUPPORTED_EXTENSIONS
        → categorize_extension (get_upload_suffix filename content_type) = "unknown") := by
  obtain ⟨hpdf, hoff, hvid, hunk⟩ := categorize_partition (get_upload_suffix filename content_type)
  refine ⟨?_, ?_, ?_, ?_, ?_⟩
  · rcases filename with _ | f
    · rfl
    · by_cases hf : f ≠ "" <;> by_cases he : splitextExt f ≠ "" <;>
        simp_all [get_upload_suffix]
  · simpa [PDF_EXTENSIONS] using hpdf
  · simpa [DOCUMENT_EXTENSIONS, SPREADSHEET_EXTENSIONS, PRESENTATION_EXTENSIONS,
      List.mem_append] using hoff
  · simpa [VIDEO_EXTENSIONS] using hvid
  · exact fun h => hunk.mpr h

/-- C6 witness: a concrete classification — an uppercase ".PDF" filename is
lowered and classified as "pdf". -/
theorem classification_total_example :
    categorize_extension (get_upload_suffix (some "report.PDF") none) = "pdf" :=
  (classification_total (some "report.PDF") none).2.1.mpr (by decide)

/-- The suffix gate and category dispatch of `convert_pdf`: the 400 raised at
lines 322-328 for suffixes outside `SUPPORTED_EXTENSIONS`, then the category
computed at line 359 and the 400 "Unsupported file extension" raised at
lines 361-363 when it is "unknown". -/
def convert_category_check (suffix : String) : Except HTTPError String :=
  if suffix ∉ SUPPORTED_EXTENSIONS then
    Except.error ⟨400,
      "Only PDF, Word, Excel, PowerPoint, and selected video files are supported"⟩
  else
    let category := categorize_extension suffix
    if category = "unknown" then
      Except.error ⟨400, "Unsupported file extension"⟩
    else Except.ok category

/-- C9: `_categorize_extension` yields "unknown" exactly on suffixes outside
`SUPPORTED_EXTENSIONS`, so after the suffix gate of `convert_pdf` the
"unknown" branch is unreachable: its "Unsupported file extension" 400 can
never be produced. -/
theorem unknown_branch_unreachable :
    (∀ s : String, categorize_extension s = "unknown" ↔ s ∉ SUPPORTED_EXTENSIONS)
    ∧ ∀ s : String,
        convert_category_check s
          ≠ Except.error ⟨400, "Unsupported file extension"⟩ := by
  have hiff : ∀ s : String,
      categorize_extension s = "unknown" ↔ s ∉ SUPPORTED_EXTENSIONS :=
    fun s => (categorize_partition s).2.2.2
  refine ⟨hiff, fun s => ?_⟩
  unfold convert_category_check
  by_cases hs : s ∈ SUPPORTED_EXTENSIONS
  · have hne : categorize_extension s ≠ "unknown" := by
      intro hu
      exact (hiff s).mp hu hs
    simp [hs, hne]
  · have : (⟨400,
        "Only PDF, Word, Excel, PowerPoint, and selected video files are supported"⟩
          : HTTPError)
        ≠ ⟨400, "Unsupported file extension"⟩ := by decide
    simp [hs, this]

/-- C9 witness: the unknown-branch error is not produced on a concrete
unsupported suffix (".txt" is stopped by the suffix gate with the other
message) nor on a concrete supported one. -/
theorem unknown_branch_unreachable_example :
    convert_category_check ".txt" ≠ Except.error ⟨400, "Unsupported file extension"⟩ :=
  unknown_branch_unreachable.2 ".txt"

/-- The negotiated response mode. -/
inductive Mode
  | multipart
  | zip
  | json
  deriving DecidableEq, Repr, Fintype

/-- Response-mode negotiation exactly as `convert_pdf` performs it
(src/app/main.py lines 340-341 combined with the `wants_json` / `wants_zip`
branches at lines 382, 403 and 411). -/
def negotiatedMode (response_format accept_header : Option String) : Mode :=
  if wants_zip response_format accept_header then Mode.zip
  else if wants_json response_format accept_header then Mode.json
  else Mode.multipart

/-- Modelled from the spec, amended: the negotiation order with the corrected
step 3/4 — when a non-empty explicit override is present, the Accept json
check is skipped entirely and the mode is json exactly when the override
equals "json" case-insensitively. -/
def specNegotiation (response_format accept_header : Option String) : Mode :=
  if (match response_format with
      | some s => s != "" && lowerCodes (strCodes s) == strCodes "zip"
      | none => false) then Mode.zip
  else if acceptHasZipType accept_header then Mode.zip
  else if (match response_format with
           | some s => s != ""
           | none => false) then
    (if (match response_format with
         | some s => lowerCodes (strCodes s) == strCodes "json"
         | none => false) then Mode.json else Mode.multipart)
  else if acceptHasJsonType accept_header then Mode.json
  else Mode.multipart

/-- Python `str.startswith`: the second string is a prefix of the first. -/
def pyStartsWith (s pre : String) : Bool := pre.data.isPrefixOf s.data

/-- The outcome of one headless-renderer invocation inside
`_capture_url_screenshot` (src/app/main.py lines 251-262), partitioned the
way the except clauses at lines 263-268 distinguish exceptions: a Playwright
timeout, any other Playwright error (navigation failure), or a non-Playwright
exception. -/
inductive RendererOutcome
  | success (image : List Nat)
  | timeoutErr (msg : String)
  | navigationErr (msg : String)
  | unexpectedErr (msg : String)
  deriving DecidableEq, Repr

/-- `_capture_url_screenshot` (src/app/main.py lines 249-268): the renderer
outcome mapped to image bytes or an HTTPException. -/
def capture_url_screenshot (outcome : RendererOutcome) :
    Except HTTPError (List Nat) :=
  match outcome with
  | .success image => Except.ok image
  | .timeoutErr msg => Except.error ⟨400, "Failed to capture screenshot: " ++ msg⟩
  | .navigationErr msg => Except.error ⟨400, "Failed to capture screenshot: " ++ msg⟩
  | .unexpectedErr msg => Except.error ⟨500, "Unexpected screenshot error: " ++ msg⟩

/-- C7: for every /screenshot request, a renderer navigation timeout or a
navigation failure during capture yields a client error (HTTP 400), and every
unexpected renderer failure yields a server error (HTTP 500). -/
theorem screenshot_error_mapping (msg : String) :
    capture_url_screenshot (RendererOutcome.timeoutErr msg)
        = Except.error ⟨400, "Failed to capture screenshot: " ++ msg⟩
    ∧ capture_url_screenshot (RendererOutcome.navigationErr msg)
        = Except.error ⟨400, "Failed to capture screenshot: " ++ msg⟩
    ∧ capture_url_screenshot (RendererOutcome.unexpectedErr msg)
        = Except.error ⟨500, "Unexpected screenshot error: " ++ msg⟩ :=
  ⟨rfl, rfl, rfl⟩

/-- `_require_http_url(value)` (src/app/main.py lines 241-246): the Python
falsiness test (`None` or empty string) then
`value.lower().startswith(("http://", "https://"))`. -/
def require_http_url (value : Option String) : Except HTTPError String :=
  match value with
  | none => Except.error ⟨400, "URL parameter is required"⟩
  | some s =>
    if s = "" then Except.error ⟨400, "URL parameter is required"⟩
    else if pyStartsWith (strToLower s) "http://"
        || pyStartsWith (strToLower s) "https://" then
      Except.ok s
    else Except.error ⟨400, "URL must start with http:// or https://"⟩

/-- The request body of `/screenshot` as lines 286-294 inspect it: no body,
a body that is not valid JSON, a JSON object with its optional "url" field,
or JSON of a non-object type. -/
inductive BodyPayload
  | noBody
  | invalidJson
  | jsonDict (url : Option String)
  | jsonOther
  deriving DecidableEq, Repr

/-- Python `url or body_url` (line 295): the first operand when truthy. -/
def pyOrElse (a b : Option String) : Option String :=
  match a with
  | some s => if s ≠ "" then some s else b
  | none => b

/-- Lines 283-295 of the `screenshot` handler: the body is consulted only
when the query parameter is `None`, a non-empty body that fails to parse is
a 400 "Invalid JSON body", a dict body contributes `payload.get("url")`, and
`_require_http_url(url or body_url)` validates the outcome. -/
def screenshot_target (query : Option String) (body : BodyPayload) :
    Except HTTPError String :=
  match query with
  | some u => require_http_url (pyOrElse (some u) none)
  | none =>
    match body with
    | .noBody => require_http_url (pyOrElse none none)
    | .invalidJson => Except.error ⟨400, "Invalid JSON body"⟩
    | .jsonDict bu => require_http_url (pyOrElse none bu)
    | .jsonOther => require_http_url (pyOrElse none none)

/-- A renderer invocation performed by the screenshot handler. -/
inductive ScreenshotStep
  | invokeRenderer (url : String)
  deriving DecidableEq, Repr

/-- The `screenshot` handler up to and including the renderer call
(lines 283-297): the renderer invocations performed and the result.
`_capture_url_screenshot` runs only after `_require_http_url` succeeds. -/
def screenshot_handler (query : Option String) (body : BodyPayload)
    (renderer : RendererOutcome) :
    List ScreenshotStep × Except HTTPError (List Nat) :=
  match screenshot_target query body with
  | Except.error e => ([], Except.error e)
  | Except.ok url =>
    ([ScreenshotStep.invokeRenderer url], capture_url_screenshot renderer)

/-- Every error of `_require_http_url` carries status 400. -/
theorem require_http_url_error_status (v : Option String) (e : HTTPError) :
    require_http_url v = Except.error e → e.status = 400 := by
  rcases v with _ | s
  · intro h
    cases h
    rfl
  · simp only [require_http_url]
    split_ifs with h1 h2 <;> intro h <;> cases h <;> rfl

/-- Every URL `_require_http_url` accepts starts, case-insensitively, with
http:// or https://. -/
theorem require_http_url_ok_scheme (v : Option String) (u : String) :
    require_http_url v = Except.ok u →
      (pyStartsWith (strToLower u) "http://"
        || pyStartsWith (strToLower u) "https://") = true := by
  rcases v with _ | s
  · intro h
    cases h
  · simp only [require_http_url]
    split_ifs with h1 h2 <;> intro h <;> cases h
    exact h2

/-- C8 amended: a missing URL, or one whose lowered form does not start with
http:// or https://, is rejected with HTTP 400 before the renderer is
invoked: every error exit of the validation phase has status 400 and performs
no renderer step, and every URL that reaches the renderer starts with
http:// or https:// after lowering (the code compares case-insensitively). -/
theorem screenshot_url_validation (query : Option String) (body : BodyPayload)
    (renderer : RendererOutcome) :
    (∀ e, screenshot_target query body = Except.error e →
        e.status = 400 ∧ (screenshot_handler query body renderer).1 = [])
    ∧ ∀ u, screenshot_target query body = Except.ok u →
        (pyStartsWith (strToLower u) "http://"
          || pyStartsWith (strToLower u) "https://") = true := by
  constructor
  · intro e he
    refine ⟨?_, ?_⟩
    · rcases query with _ | q
      · rcases body with _ | _ | bu | _ <;>
          simp only [screenshot_target] at he <;>
          first
          | exact require_http_url_error_status _ e he
          | (cases he; rfl)
      · exact require_http_url_error_status _ e
          (by simpa [screenshot_target] using he)
    · unfold screenshot_handler
      rw [he]
  · intro u hu
    rcases query with _ | q
    · rcases body with _ | _ | bu | _ <;>
        simp only [screenshot_target] at hu <;>
        first
        | exact require_http_url_ok_scheme _ u hu
        | cases hu
    · exact require_http_url_ok_scheme _ u
        (by simpa [screenshot_target] using hu)

/-- C8 witness: a missing URL is rejected with a 400 and no renderer step. -/
theorem screenshot_url_validation_example :
    (⟨400, "URL parameter is required"⟩ : HTTPError).status = 400
    ∧ (screenshot_handler none BodyPayload.noBody
        (RendererOutcome.success [])).1 = [] :=
  (screenshot_url_validation none BodyPayload.noBody
    (RendererOutcome.success [])).1 ⟨400, "URL parameter is required"⟩ rfl

/-- C8 counterexample: "HTTP://example.com" does not literally start with
"http://" or "https://", yet the handler accepts it (the check lowers the
value first) and invokes the renderer instead of rejecting with 400. -/
theorem uppercase_scheme_reaches_renderer :
    pyStartsWith "HTTP://example.com" "http://" = false
    ∧ pyStartsWith "HTTP://example.com" "https://" = false
    ∧ (screenshot_handler (some "HTTP://example.com") BodyPayload.noBody
        (RendererOutcome.success [])).1
      = [ScreenshotStep.invokeRenderer "HTTP://example.com"] := by
  decide

/-- `CHUNK_SIZE = 1024 * 1024` (src/app/main.py line 27). -/
def CHUNK_SIZE : Nat := 1024 * 1024

/-- The file-read loop of `_multipart_stream` / `_stream_file` (lines 186-191
and 196-202): the successive results of `read(CHUNK_SIZE)` on a file holding
the given bytes; the loop ends on an empty read, so an empty file yields no
chunk at all. -/
def readChunks (l : List Nat) : List (List Nat) :=
  match l with
  | [] => []
  | b :: rest =>
    ((b :: rest).take CHUNK_SIZE) :: readChunks ((b :: rest).drop CHUNK_SIZE)
termination_by l.length
decreasing_by
  simp only [List.length_drop, List.length_cons, CHUNK_SIZE]
  omega

/-- Concatenating the read chunks restores the file's bytes. -/
theorem readChunks_flatten : ∀ l : List Nat, (readChunks l).flatten = l
  | [] => by simp [readChunks]
  | b :: rest => by
    rw [readChunks]
    rw [List.flatten_cons, readChunks_flatten ((b :: rest).drop CHUNK_SIZE)]
    exact List.take_append_drop _ _
termination_by l => l.length
decreasing_by
  simp only [List.length_drop, List.length_cons, CHUNK_SIZE]
  omega

/-- The per-part header block of `_multipart_stream` (lines 177-184): boundary
delimiter line, Content-Type, Content-Disposition with `page-<n>.jpg`,
Content-Length, blank line. -/
def partHeaders (boundary : String) (index : Nat) (content_length : Nat) : String :=
  "--" ++ boundary ++ "\r\n"
    ++ "Content-Type: image/jpeg\r\n"
    ++ "Content-Disposition: attachment; filename=\"page-" ++ toString index ++ ".jpg\"\r\n"
    ++ "Content-Length: " ++ toString content_length ++ "\r\n\r\n"

/-- The closing delimiter `--<boundary>--\r\n` yielded at line 193. -/
def closingDelimiter (boundary : String) : List Nat :=
  strCodes ("--" ++ boundary ++ "--\r\n")

/-- `_multipart_stream(image_paths, boundary)` (src/app/main.py lines 175-193):
the list of yielded chunks.  Each image file is modelled by its byte content;
`os.path.getsize` is its length, enumeration starts at 1, file bytes are
yielded via the `read(CHUNK_SIZE)` loop, and after the loop the closing
delimiter is yielded. -/
def multipartStreamFrom (boundary : String) : Nat → List (List Nat) → List (List Nat)
  | _, [] => [closingDelimiter boundary]
  | index, img :: rest =>
    strCodes (partHeaders boundary index img.length)
      :: (readChunks img ++ [strCodes "\r\n"]
          ++ multipartStreamFrom boundary (index + 1) rest)

/-- `_multipart_stream` with the initial `enumerate(..., start=1)` index. -/
def multipart_stream (image_paths : List (List Nat)) (boundary : String) :
    List (List Nat) :=
  multipartStreamFrom boundary 1 image_paths

/-- Modelled from the spec (refinement target for C4): the bytes of the n-th
part — boundary line and headers carrying the exact byte size, a blank line,
the raw file bytes unmodified, a trailing CRLF. -/
def partBytes (boundary : String) (index : Nat) (img : List Nat) : List Nat :=
  strCodes (partHeaders boundary index img.length) ++ img ++ strCodes "\r\n"

/-- Modelled from the spec (refinement target for C4): the whole multipart
body — exactly one part per image, in list order with 1-based indices,
followed by exactly one closing boundary delimiter. -/
def multipartBodyFrom (boundary : String) : Nat → List (List Nat) → List Nat
  | _, [] => closingDelimiter boundary
  | index, img :: rest =>
    partBytes boundary index img ++ multipartBodyFrom boundary (index + 1) rest

/-- The streamed chunks flatten to the specified body, from any start index. -/
theorem multipartStreamFrom_flatten (boundary : String) :
    ∀ (n : Nat) (imgs : List (List Nat)),
      (multipartStreamFrom boundary n imgs).flatten = multipartBodyFrom boundary n imgs
  | _, [] => by simp [multipartStreamFrom, multipartBodyFrom]
  | n, img :: rest => by
    rw [multipartStreamFrom, multipartBodyFrom]
    simp only [List.flatten_cons, List.flatten_append,
      multipartStreamFrom_flatten boundary (n + 1) rest, partBytes,
      readChunks_flatten, List.flatten_cons, List.flatten_nil, List.append_nil,
      List.append_assoc]

/-- C4: for every list of page images and every boundary, the bytes emitted by
the multipart encoder are exactly one part per image in order — each part
being the boundary delimiter line, the image/jpeg and attachment headers for
`page-<n>.jpg`, a Content-Length equal to the file's exact byte size, a blank
line, the raw file bytes unmodified, and a trailing CRLF — followed by exactly
one closing boundary delimiter. -/
theorem multipart_stream_correct (image_paths : List (List Nat)) (boundary : String) :
    (multipart_stream image_paths boundary).flatten
      = multipartBodyFrom boundary 1 image_paths :=
  multipartStreamFrom_flatten boundary 1 image_paths

/-- Every multipart stream is some prefix followed by the closing delimiter. -/
theorem multipartStreamFrom_eq_concat (boundary : String) :
    ∀ (n : Nat) (imgs : List (List Nat)),
      ∃ pre, multipartStreamFrom boundary n imgs = pre ++ [closingDelimiter boundary]
  | _, [] => ⟨[], rfl⟩
  | n, img :: rest => by
    obtain ⟨pre, hp⟩ := multipartStreamFrom_eq_concat boundary (n + 1) rest
    refine ⟨strCodes (partHeaders boundary n img.length)
      :: (readChunks img ++ [strCodes "\r\n"] ++ pre), ?_⟩
    simp [multipartStreamFrom, hp]

/-- C10: on the empty image list the encoder yields exactly one chunk, the
closing delimiter `--<boundary>--\r\n`; and for every input list the final
chunk yielded is exactly that closing delimiter. -/
theorem multipart_stream_closing :
    (∀ boundary : String,
        multipart_stream [] boundary = [closingDelimiter boundary])
    ∧ ∀ (image_paths : List (List Nat)) (boundary : String),
        (multipart_stream image_paths boundary).getLast?
          = some (closingDelimiter boundary) := by
  constructor
  · intro b
    rfl
  · intro imgs b
    obtain ⟨pre, hp⟩ := multipartStreamFrom_eq_concat b 1 imgs
    rw [multipart_stream, hp]
    exact List.getLast?_concat _

/-- C1: For every /convert request the negotiated mode follows the amended
decision order: (1) a non-empty override equal to "zip" case-insensitively
gives zip; (2) else an Accept header containing application/zip or
application/x-zip-compressed gives zip; (3) else, when a non-empty override
is present, the mode is json exactly when the override equals "json"
case-insensitively — the Accept json check is skipped; (4) else an Accept
header containing application/json gives json; (5) else multipart. -/
theorem convert_mode_decision (rf ah : Option String) :
    negotiatedMode rf ah = specNegotiation rf ah := by
  rcases rf with _ | s
  · by_cases h3 : acceptHasZipType ah <;> by_cases h5 : acceptHasJsonType ah <;>
      simp [negotiatedMode, specNegotiation, wants_zip, wants_json, h3, h5]
  · by_cases h1 : s != "" <;>
      by_cases h2 : lowerCodes (strCodes s) == strCodes "zip" <;>
      by_cases h3 : acceptHasZipType ah <;>
      by_cases h4 : lowerCodes (strCodes s) == strCodes "json" <;>
      by_cases h5 : acceptHasJsonType ah <;>
      simp [negotiatedMode, specNegotiation, wants_zip, wants_json, h1, h2, h3, h4, h5]

/-- C1 witness: instantiating the decision order at a concrete request. -/
theorem convert_mode_decision_holds :
    negotiatedMode (some "xml") (some "application/json")
      = specNegotiation (some "xml") (some "application/json") :=
  convert_mode_decision (some "xml") (some "application/json")

/-- C1 counterexample: with override "xml" (neither "zip" nor "json") and
`Accept: application/json`, the code yields multipart, not json as the claim
states — `_wants_json` returns immediately on a truthy override and never
consults the Accept header. -/
theorem convert_mode_override_skips_accept_json :
    negotiatedMode (some "xml") (some "application/json") = Mode.multipart
    ∧ Mode.multipart ≠ Mode.json := by
  decide

/-- C2 amended: zip-by-Accept wins even when an explicit override is present;
with override "json" and any Accept header containing a zip media type, the
negotiated mode is zip (an override only short-circuits the json Accept
check inside `_wants_json`, never the Accept scan inside `_wants_zip`). -/
theorem zip_accept_beats_json_override (ah : String)
    (h : acceptHasZipType (some ah) = true) :
    negotiatedMode (some "json") (some ah) = Mode.zip := by
  have hc : (("json" : String) != ""
      && lowerCodes (strCodes "json") == strCodes "zip") = false := by decide
  simp [negotiatedMode, wants_zip, hc, h]

/-- C2 witness: override "json" with `Accept: application/zip` negotiates zip. -/
theorem zip_accept_beats_json_override_holds :
    negotiatedMode (some "json") (some "application/zip") = Mode.zip :=
  zip_accept_beats_json_override "application/zip" (by decide)

/-- C2 counterexample: with override "json" and `Accept: application/zip` the
negotiated mode is zip, not json as the claim states. -/
theorem json_override_zip_accept_is_zip :
    negotiatedMode (some "json") (some "application/zip") = Mode.zip
    ∧ Mode.zip ≠ Mode.json := by
  decide

/-- The base64 alphabet used by `base64.b64encode`. -/
def b64alphabet : List Char :=
  "ABCDEFGHIJKLMNOPQRSTUVWXYZabcdefghijklmnopqrstuvwxyz0123456789+/".data

/-- The base64 digit of a 6-bit value. -/
def b64char (n : Nat) : Char := b64alphabet.getD n '='

/-- The 6-bit value of a base64 digit (64 for a non-digit). -/
def b64val (c : Char) : Nat := b64alphabet.findIdx (fun x => x == c)

/-- Standard base64 of a byte list (Python `base64.b64encode`, used at
line 387): three bytes become four digits; a two-byte remainder becomes
three digits and "="; a one-byte remainder becomes two digits and "==". -/
def b64encodeList : List Nat → List Char
  | b1 :: b2 :: b3 :: rest =>
    b64char (b1 / 4) :: b64char (b1 % 4 * 16 + b2 / 16)
      :: b64char (b2 % 16 * 4 + b3 / 64) :: b64char (b3 % 64)
      :: b64encodeList rest
  | [b1, b2] =>
    [b64char (b1 / 4), b64char (b1 % 4 * 16 + b2 / 16), b64char (b2 % 16 * 4), '=']
  | [b1] => [b64char (b1 / 4), b64char (b1 % 4 * 16), '=', '=']
  | [] => []

/-- A standard base64 decoder (the client-side inverse the claim refers to):
four digits back to three bytes, honouring "=" padding. -/
def b64decodeList : List Char → List Nat
  | c1 :: c2 :: c3 :: c4 :: rest =>
    if c3 = '=' then [b64val c1 * 4 + b64val c2 / 16]
    else if c4 = '=' then
      [b64val c1 * 4 + b64val c2 / 16, b64val c2 % 16 * 16 + b64val c3 / 4]
    else
      (b64val c1 * 4 + b64val c2 / 16) :: (b64val c2 % 16 * 16 + b64val c3 / 4)
        :: (b64val c3 % 4 * 64 + b64val c4) :: b64decodeList rest
  | _ => []

/-- Decoding a base64 digit of a 6-bit value recovers the value. -/
theorem b64val_b64char : ∀ n < 64, b64val (b64char n) = n := by decide

/-- No base64 digit of a 6-bit value is the padding character. -/
theorem b64char_ne_pad : ∀ n < 64, b64char n ≠ '=' := by decide

/-- Base64 round-trip on byte lists. -/
theorem b64_roundtrip :
    ∀ l : List Nat, (∀ b ∈ l, b < 256) → b64decodeList (b64encodeList l) = l
  | [], _ => rfl
  | [b1], h => by
    have hb1 : b1 < 256 := h b1 (by simp)
    have h1 := b64val_b64char (b1 / 4) (by omega)
    have h2 := b64val_b64char (b1 % 4 * 16) (by omega)
    simp [b64encodeList, b64decodeList, h1, h2]
    omega
  | [b1, b2], h => by
    have hb1 : b1 < 256 := h b1 (by simp)
    have hb2 : b2 < 256 := h b2 (by simp)
    have hpad := b64char_ne_pad (b2 % 16 * 4) (by omega)
    have h1 := b64val_b64char (b1 / 4) (by omega)
    have h2 := b64val_b64char (b1 % 4 * 16 + b2 / 16) (by omega)
    have h3 := b64val_b64char (b2 % 16 * 4) (by omega)
    simp [b64encodeList, b64decodeList, hpad, h1, h2, h3]
    omega
  | b1 :: b2 :: b3 :: rest, h => by
    have hb1 : b1 < 256 := h b1 (by simp)
    have hb2 : b2 < 256 := h b2 (by simp)
    have hb3 : b3 < 256 := h b3 (by simp)
    have ih := b64_roundtrip rest
      (fun b hb => h b (by simp [hb]))
    have hpad1 := b64char_ne_pad (b2 % 16 * 4 + b3 / 64) (by omega)
    have hpad2 := b64char_ne_pad (b3 % 64) (by omega)
    have h1 := b64val_b64char (b1 / 4) (by omega)
    have h2 := b64val_b64char (b1 % 4 * 16 + b2 / 16) (by omega)
    have h3 := b64val_b64char (b2 % 16 * 4 + b3 / 64) (by omega)
    have h4 := b64val_b64char (b3 % 64) (by omega)
    simp [b64encodeList, b64decodeList, hpad1, hpad2, h1, h2, h3, h4, ih]
    omega

/-- One object of the json-mode payload (lines 389-395). -/
structure PageEntry where
  page : Nat
  filename : String
  data : String
  deriving DecidableEq, Repr, Inhabited

/-- The json-mode payload assembly of `convert_pdf` (lines 384-395): one
object per image, in order, `enumerate(..., start=1)`, each holding the page
number, the filename `page-<n>.jpg`, and the data URI
`data:image/jpeg;base64,<encoded>` of the image's bytes. -/
def jsonPayloadFrom : Nat → List (List Nat) → List PageEntry
  | _, [] => []
  | n, img :: rest =>
    ⟨n, "page-" ++ toString n ++ ".jpg",
      "data:image/jpeg;base64," ++ String.mk (b64encodeList img)⟩
      :: jsonPayloadFrom (n + 1) rest

/-- The json-mode payload with the initial index 1. -/
def jsonPayload (images : List (List Nat)) : List PageEntry :=
  jsonPayloadFrom 1 images

/-- Entry `i` of the payload built from start index `n` describes image `i`
with page number `n + i`. -/
theorem jsonPayloadFrom_spec :
    ∀ (n : Nat) (images : List (List Nat)),
      (∀ img ∈ images, ∀ b ∈ img, b < 256) →
      (jsonPayloadFrom n images).length = images.length
      ∧ ∀ i, i < images.length →
          ((jsonPayloadFrom n images).getD i default).page = n + i
          ∧ ((jsonPayloadFrom n images).getD i default).filename
              = "page-" ++ toString (n + i) ++ ".jpg"
          ∧ ((jsonPayloadFrom n images).getD i default).data
              = "data:image/jpeg;base64,"
                ++ String.mk (b64encodeList (images.getD i []))
          ∧ b64decodeList (b64encodeList (images.getD i [])) = images.getD i []
  | _, [], _ => ⟨rfl, fun i hi => absurd hi (by simp)⟩
  | n, img :: rest, h => by
    have himg : ∀ b ∈ img, b < 256 := h img (by simp)
    have hrest : ∀ x ∈ rest, ∀ b ∈ x, b < 256 :=
      fun x hx => h x (by simp [hx])
    obtain ⟨ihlen, ihspec⟩ := jsonPayloadFrom_spec (n + 1) rest hrest
    refine ⟨by simp [jsonPayloadFrom, ihlen], fun i hi => ?_⟩
    match i with
    | 0 =>
      refine ⟨by simp [jsonPayloadFrom], by simp [jsonPayloadFrom],
        by simp [jsonPayloadFrom], ?_⟩
      simpa using b64_roundtrip img himg
    | Nat.succ j =>
      have hj : j < rest.length := by
        simpa [Nat.succ_lt_succ_iff] using hi
      obtain ⟨p1, p2, p3, p4⟩ := ihspec j hj
      refine ⟨?_, ?_, ?_, ?_⟩
      · simpa [jsonPayloadFrom, Nat.add_assoc, Nat.add_comm 1 j] using p1
      · simpa [jsonPayloadFrom, Nat.add_assoc, Nat.add_comm 1 j] using p2
      · simpa [jsonPayloadFrom] using p3
      · simpa [jsonPayloadFrom] using p4

/-- C5: in json mode the response is one array with exactly one object per
page image, in order; object `n` (1-based) carries `page = n`, filename
`page-<n>.jpg`, and a `data` field equal to `data:image/jpeg;base64,<...>`;
stripping that fixed data-URI head and base64-decoding the remainder
reproduces exactly the bytes of the n-th page-image file. -/
theorem json_mode_roundtrip (images : List (List Nat))
    (h : ∀ img ∈ images, ∀ b ∈ img, b < 256) :
    (jsonPayload images).length = images.length
    ∧ ∀ i, i < images.length →
        ((jsonPayload images).getD i default).page = i + 1
        ∧ ((jsonPayload images).getD i default).filename
            = "page-" ++ toString (i + 1) ++ ".jpg"
        ∧ ((jsonPayload images).getD i default).data
            = "data:image/jpeg;base64,"
              ++ String.mk (b64encodeList (images.getD i []))
        ∧ b64decodeList (b64encodeList (images.getD i [])) = images.getD i [] := by
  obtain ⟨hlen, hspec⟩ := jsonPayloadFrom_spec 1 images h
  refine ⟨hlen, fun i hi => ?_⟩
  obtain ⟨p1, p2, p3, p4⟩ := hspec i hi
  exact ⟨by simpa [Nat.add_comm 1 i] using p1,
    by simpa [Nat.add_comm 1 i] using p2, p3, p4⟩

/-- C5 witness: the payload of two concrete images round-trips; its first
entry has page 1 and decoding its base64 restores the first image's bytes. -/
theorem json_mode_roundtrip_example :
    b64decodeList (b64encodeList ([0, 1, 250] : List Nat)) = [0, 1, 250]
    ∧ ((jsonPayload [[0, 1, 250], [77]]).getD 0 default).page = 1 :=
  ⟨((json_mode_roundtrip [[0, 1, 250], [77]] (by decide)).2 0 (by decide)).2.2.2,
    ((json_mode_roundtrip [[0, 1, 250], [77]] (by decide)).2 0 (by decide)).1⟩

/-- A temporary filesystem resource created by one /convert request:
the uploaded temp file (line 330), the page-image `TemporaryDirectory`
(line 337), the `mkdtemp` scratch directory of `_convert_office_to_pdf`
(line 79), and the `NamedTemporaryFile` of `_create_zip_archive` (line 206). -/
inductive Res
  | tmpFile
  | imagesDir
  | officeDir
  | zipTmp
  deriving DecidableEq, Repr, Fintype

/-- One observable action of a /convert request on its temp resources:
allocation, reclamation (`os.unlink` / `shutil.rmtree` / `cleanup()`),
reading or writing files under a resource, yielding response bytes, or an
HTTPException propagating out. -/
inductive Ev
  | alloc (r : Res)
  | free (r : Res)
  | useRes (r : Res)
  | emit
  | raiseErr
  deriving DecidableEq, Repr

/-- The input category that reaches conversion (the "unknown" branch is
unreachable, see C9). -/
inductive Category
  | pdf
  | office
  | video
  deriving DecidableEq, Repr, Fintype

/-- How one /convert request unfolds after reaching conversion: which
external steps fail and whether the client disconnects mid-stream.
`outputFails` is an exception raised while producing output — an OSError
while writing the ZIP archive, or a failure reading a page image in the
json/multipart encoders. -/
structure ConvEnv where
  category : Category
  officeFails : Bool
  convertFails : Bool
  mode : Mode
  outputFails : Bool
  clientAborts : Bool
  deriving DecidableEq, Repr, Fintype

/-- `cleanup(*extra_paths)` (src/app/main.py lines 345-355): unlink the
upload temp file and, when its path was recorded, the ZIP temp file; then
`rmtree` each directory in `cleanup_dirs` (the office scratch directory when
registered); then `temp_images.cleanup()`. -/
def cleanupEvs (zipRecorded : Bool) (officeRegistered : Bool) : List Ev :=
  [Ev.free Res.tmpFile]
    ++ (if zipRecorded then [Ev.free Res.zipTmp] else [])
    ++ (if officeRegistered then [Ev.free Res.officeDir] else [])
    ++ [Ev.free Res.imagesDir]

/-- The conversion phase of `convert_pdf` (lines 365-380): the events it
performs, whether it failed, and whether the office scratch directory was
registered in `cleanup_dirs`.  `_convert_office_to_pdf` removes its own
scratch directory on each of its failure paths (lines 104, 112, 123) before
raising, and is only registered on success (line 376). -/
def conversionPhase (env : ConvEnv) : List Ev × Bool × Bool :=
  match env.category with
  | Category.video =>
    if env.convertFails then ([Ev.useRes Res.tmpFile], true, false)
    else ([Ev.useRes Res.tmpFile, Ev.useRes Res.imagesDir], false, false)
  | Category.pdf =>
    if env.convertFails then
      ([Ev.useRes Res.tmpFile, Ev.useRes Res.imagesDir], true, false)
    else ([Ev.useRes Res.tmpFile, Ev.useRes Res.imagesDir], false, false)
  | Category.office =>
    if env.officeFails then
      ([Ev.alloc Res.officeDir, Ev.useRes Res.tmpFile, Ev.free Res.officeDir],
        true, false)
    else if env.convertFails then
      ([Ev.alloc Res.officeDir, Ev.useRes Res.tmpFile, Ev.useRes Res.officeDir,
        Ev.useRes Res.imagesDir], true, true)
    else
      ([Ev.alloc Res.officeDir, Ev.useRes Res.tmpFile, Ev.useRes Res.officeDir,
        Ev.useRes Res.imagesDir], false, true)

/-- The output phase of `convert_pdf` (lines 382-413).  json (lines 382-398):
read the images, build the payload, reclaim in the `finally`.  multipart and
zip: the `content()` generator (lines 400-409) reclaims in its `finally`,
which also runs when the client disconnects and the generator is closed.
In zip mode `_create_zip_archive` first creates the temp file and only then
writes the archive; if that write raises, the `nonlocal zip_path` was never
assigned, so the `finally` runs `cleanup(None)` — without the ZIP file. -/
def outputPhase (env : ConvEnv) (officeRegistered : Bool) : List Ev :=
  match env.mode with
  | Mode.json =>
    if env.outputFails then
      [Ev.useRes Res.imagesDir] ++ cleanupEvs false officeRegistered
        ++ [Ev.raiseErr]
    else [Ev.useRes Res.imagesDir] ++ cleanupEvs false officeRegistered
  | Mode.multipart =>
    if env.outputFails then
      [Ev.useRes Res.imagesDir, Ev.emit] ++ cleanupEvs false officeRegistered
        ++ [Ev.raiseErr]
    else if env.clientAborts then
      [Ev.useRes Res.imagesDir, Ev.emit] ++ cleanupEvs false officeRegistered
    else [Ev.useRes Res.imagesDir, Ev.emit] ++ cleanupEvs false officeRegistered
  | Mode.zip =>
    if env.outputFails then
      [Ev.alloc Res.zipTmp, Ev.useRes Res.imagesDir]
        ++ cleanupEvs false officeRegistered ++ [Ev.raiseErr]
    else if env.clientAborts then
      [Ev.alloc Res.zipTmp, Ev.useRes Res.imagesDir, Ev.useRes Res.zipTmp,
        Ev.emit] ++ cleanupEvs true officeRegistered
    else
      [Ev.alloc Res.zipTmp, Ev.useRes Res.imagesDir, Ev.useRes Res.zipTmp,
        Ev.emit] ++ cleanupEvs true officeRegistered

/-- The full resource trace of one /convert request that reaches conversion:
upload temp file written (line 330), image directory created (line 337),
then conversion; on conversion failure `cleanup(None)` runs and the error
propagates (lines 368-370 and 378-380), otherwise the output phase runs. -/
def convertTrace (env : ConvEnv) : List Ev :=
  [Ev.alloc Res.tmpFile, Ev.alloc Res.imagesDir]
    ++ (let p := conversionPhase env
        p.1 ++ (if p.2.1 then cleanupEvs false p.2.2 ++ [Ev.raiseErr]
                else outputPhase env p.2.2))

/-- All resources. -/
def resList : List Res := [Res.tmpFile, Res.imagesDir, Res.officeDir, Res.zipTmp]

/-- Every allocation in the trace is matched by exactly one reclamation. -/
def balancedOnce (t : List Ev) : Bool :=
  resList.all (fun r =>
    t.count (Ev.alloc r) == t.count (Ev.free r) && t.count (Ev.free r) ≤ 1)

/-- From the first reclamation on, only reclamations (and the propagating
error) occur: reclamation is the last thing the request does. -/
def freesLast (t : List Ev) : Bool :=
  (t.dropWhile (fun e => !(match e with | Ev.free _ => true | _ => false))).all
    (fun e => match e with | Ev.free _ => true | Ev.raiseErr => true | _ => false)

/-- No resource is used or re-allocated after it has been reclaimed. -/
def noUseAfterFree (t : List Ev) : Bool :=
  resList.all (fun r =>
    (t.dropWhile (fun e => e != Ev.free r)).all
      (fun e => e != Ev.useRes r && e != Ev.alloc r))

set_option maxRecDepth 100000 in
/-- On every outcome except a failure inside ZIP-archive creation, the trace
reclaims every allocated resource exactly once, reclaims last, and never
touches a reclaimed resource. -/
theorem convert_cleanup_exact (env : ConvEnv) :
    (env.mode = Mode.zip ∧ env.outputFails = true)
    ∨ (balancedOnce (convertTrace env) = true
        ∧ freesLast (convertTrace env) = true
        ∧ noUseAfterFree (convertTrace env) = true) := by
  revert env
  decide

/-- C3 (code bug): when producing a ZIP response and `_create_zip_archive`
fails after its `NamedTemporaryFile` is created (e.g. an OSError inside
`zipfile.ZipFile.write`), the `nonlocal zip_path` of `content()` is never
assigned, so the generator's `finally` runs `cleanup(None)` and the ZIP temp
file is never unlinked: it is allocated once and freed zero times — while
the upload temp file and the image directory are still freed exactly once.
This contradicts the claim that every temporary resource, including any ZIP
temp file, is reclaimed exactly once with nothing left behind. -/
theorem convert_zip_leak :
    let env : ConvEnv :=
      ⟨Category.pdf, false, false, Mode.zip, true, false⟩
    (convertTrace env).count (Ev.alloc Res.zipTmp) = 1
    ∧ (convertTrace env).count (Ev.free Res.zipTmp) = 0
    ∧ (convertTrace env).count (Ev.free Res.tmpFile) = 1
    ∧ (convertTrace env).count (Ev.free Res.imagesDir) = 1
    ∧ balancedOnce (convertTrace env) = false := by
  decide

end PdfService
